import Mathlib

/-!
Verification of the HyperGraphs single-pole RC filter analysis program.

The program ingests measured frequency-response data of first-order RC
filters (high-pass and low-pass), derives gain / in-phase / quadrature
quantities, fits them against closed-form theoretical models via
nonlinear least squares, and resamples the fitted curves on a fixed
export grid.

This file shallowly embeds the numerical core:
 - the theoretical response models of `functions/highpass/gain.py`,
   `functions/highpass/_voutc.py`, `functions/highpass/_vouts.py`,
   `functions/lowpass/_gain.py`, `functions/lowpass/_voutc.py`,
   `functions/lowpass/_vouts.py` — numpy array math over IEEE doubles
   is modelled pointwise over the reals (vectorized functions become
   `List.map` / `List.zipWith` of a scalar kernel);
 - an IEEE-754 special-value model (`FloatVal`) for the direct gain
   estimator, where division by zero and logarithms of non-positive
   numbers matter;
 - the export frequency grid of `save_point` in `HyperGraphs.py`
   (exact small integers, modelled over ℕ);
 - the import graph of the `functions` packages;
 - the call/parameter shape of `plotter` in `HyperGraphs.py` and its
   call site in `__main__.py`.
-/

open Real Filter

namespace HyperGraphs

/-! ## Theory models (pointwise scalar kernels)

Each numpy expression is transcribed with the source's intermediate
variable names.  `np.log10` is `Real.logb 10`; `np.sqrt` is
`Real.sqrt`; `x ** (-2)` on positive floats is the zpow `x ^ (-2 : ℤ)`.
-/

namespace highpass

/-- Scalar kernel of `highpass/gain.py`, `calc_gain_from_theory`:
`omega = 2*pi*frequency; squared = (1/(omega*tau))**2 + 1;
denominator = sqrt(squared); return 20*log10(1/denominator)`. -/
noncomputable def gain_point (frequency tau : ℝ) : ℝ :=
  let omega := 2 * π * frequency
  let squared := (1 / (omega * tau)) ^ 2 + 1
  let denominator := Real.sqrt squared
  20 * Real.logb 10 (1 / denominator)

/-- `highpass/gain.py`, `calc_gain_from_theory`, vectorized over the
frequency array as numpy broadcasting does. -/
noncomputable def calc_gain_from_theory (frequency : List ℝ) (tau : ℝ) : List ℝ :=
  frequency.map (fun f => gain_point f tau)

/-- Scalar kernel of `highpass/_voutc.py`, `calc_voutcosphi_from_theory`:
`omegatau = 2*pi*tau*frequency; den = sqrt(omegatau**2 + 1);
sine = 1/den; cosine = -omegatau/den;
cosineval = cosine*cos(phi_1) - sine*sin(phi_1);
vout = v_in/sqrt(omegatau**(-2) + 1); return vout*cosineval`. -/
noncomputable def voutcosphi_point (frequency tau v_in phi_1 : ℝ) : ℝ :=
  let omegatau := 2 * π * tau * frequency
  let den := Real.sqrt (omegatau ^ 2 + 1)
  let sine := 1 / den
  let cosine := -omegatau / den
  let cosineval := cosine * Real.cos phi_1 - sine * Real.sin phi_1
  let vout := v_in / Real.sqrt (omegatau ^ (-2 : ℤ) + 1)
  vout * cosineval

/-- Scalar kernel of `highpass/_vouts.py`, `calc_voutsinphi_from_theory`:
same intermediates as the cosine component, with
`sineval = sine*cos(phi_1) + cosine*sin(phi_1)`. -/
noncomputable def voutsinphi_point (frequency tau v_in phi_1 : ℝ) : ℝ :=
  let omegatau := 2 * π * tau * frequency
  let den := Real.sqrt (omegatau ^ 2 + 1)
  let sine := 1 / den
  let cosine := -omegatau / den
  let sineval := sine * Real.cos phi_1 + cosine * Real.sin phi_1
  let vout := v_in / Real.sqrt (omegatau ^ (-2 : ℤ) + 1)
  vout * sineval

end highpass

namespace lowpass

/-- Scalar kernel of `lowpass/_gain.py`, `calc_gain_from_theory`:
`tauomega = 2*pi*tau*frequency; return 10*log10(1/(tauomega**2 + 1))`. -/
noncomputable def gain_point (frequency tau : ℝ) : ℝ :=
  let tauomega := 2 * π * tau * frequency
  10 * Real.logb 10 (1 / (tauomega ^ 2 + 1))

/-- `lowpass/_gain.py`, `calc_gain_from_theory`, vectorized over the
frequency array as numpy broadcasting does. -/
noncomputable def calc_gain_from_theory (frequency : List ℝ) (tau : ℝ) : List ℝ :=
  frequency.map (fun f => gain_point f tau)

/-- Scalar kernel of `lowpass/_voutc.py`, `calc_voutcosphi_from_theory`:
`tauomega = 2*pi*tau*frequency; den = sqrt(tauomega**2 + 1);
cosine = 1/den; sine = tauomega/den;
cosineval = cosine*cos(phi_1) - sine*sin(phi_1);
v_out = v_in/den; return v_out*cosineval`. -/
noncomputable def voutcosphi_point (frequency tau v_in phi_1 : ℝ) : ℝ :=
  let tauomega := 2 * π * tau * frequency
  let den := Real.sqrt (tauomega ^ 2 + 1)
  let cosine := 1 / den
  let sine := tauomega / den
  let cosineval := cosine * Real.cos phi_1 - sine * Real.sin phi_1
  let v_out := v_in / den
  v_out * cosineval

/-- Scalar kernel of `lowpass/_vouts.py`, `calc_voutsinphi_from_theory`:
`tauomega = 2*pi*tau*frequency; den = sqrt(tauomega**2 + 1);
cosine = 1/den; sine = -tauomega/den;
sineval = sine*cos(phi_1) + cosine*sin(phi_1);
v_out = v_in/den; return v_out*sineval`. -/
noncomputable def voutsinphi_point (frequency tau v_in phi_1 : ℝ) : ℝ :=
  let tauomega := 2 * π * tau * frequency
  let den := Real.sqrt (tauomega ^ 2 + 1)
  let cosine := 1 / den
  let sine := -tauomega / den
  let sineval := sine * Real.cos phi_1 + cosine * Real.sin phi_1
  let v_out := v_in / den
  v_out * sineval

end lowpass

/-! ## Filter-kind dispatch

`plotter` (HyperGraphs.py lines 213–226) selects the high-pass or
low-pass model functions by the boolean `hilo` (`True` = high-pass). -/

/-- The gain model selected by `hilo`, as in `plotter`. -/
noncomputable def gain_point_of (hilo : Bool) (frequency tau : ℝ) : ℝ :=
  if hilo then highpass.gain_point frequency tau else lowpass.gain_point frequency tau

/-- The in-phase (v_out·cos φ) model selected by `hilo`, as in `plotter`. -/
noncomputable def voutcosphi_point_of (hilo : Bool) (frequency tau v_in phi_1 : ℝ) : ℝ :=
  if hilo then highpass.voutcosphi_point frequency tau v_in phi_1
  else lowpass.voutcosphi_point frequency tau v_in phi_1

/-- The quadrature (v_out·sin φ) model selected by `hilo`, as in `plotter`. -/
noncomputable def voutsinphi_point_of (hilo : Bool) (frequency tau v_in phi_1 : ℝ) : ℝ :=
  if hilo then highpass.voutsinphi_point frequency tau v_in phi_1
  else lowpass.voutsinphi_point frequency tau v_in phi_1

/-! ## Export grid of `save_point` (HyperGraphs.py lines 349–359)

All ten `np.arange` calls have integral start/stop/step, so the grid is
modelled exactly over ℕ.  `np.arange a b s` (positive step) yields
`a, a+s, a+2s, …` with `⌈(b-a)/s⌉` elements. -/

namespace np

/-- numpy `arange` for a positive integral step: `start + k*step` for
`k < ⌈(stop-start)/step⌉`. -/
def arange (start stop step : ℕ) : List ℕ :=
  (List.range ((stop - start + step - 1) / step)).map (fun k => start + k * step)

/-- numpy `mean` of a 1-D array: sum divided by length. -/
noncomputable def mean (l : List ℝ) : ℝ := l.sum / l.length

end np

/-- The frequency grid built in `save_point`:
`r1 = arange(10,50,1)`, `r2 = arange(50,100,2)`, `r3 = arange(100,500,10)`,
`r4 = arange(500,1000,20)`, `r5 = arange(1000,5000,100)`,
`r6 = arange(5000,10000,200)`, `r7 = arange(1e4,5e4,1e3)`,
`r8 = arange(5e4,1e5,2e3)`, `r9 = arange(1e5,5e5,1e4)`,
`r10 = arange(5e5,1e6,2e4)`, concatenated in order. -/
def save_point_frequency : List ℕ :=
  np.arange 10 50 1 ++ np.arange 50 100 2 ++ np.arange 100 500 10 ++
    np.arange 500 1000 20 ++ np.arange 1000 5000 100 ++ np.arange 5000 10000 200 ++
    np.arange 10000 50000 1000 ++ np.arange 50000 100000 2000 ++
    np.arange 100000 500000 10000 ++ np.arange 500000 1000000 20000

/-! ## Import graph of the `functions` packages

`highpass/__init__.py` runs `from ._gain import *`, `from ._voutc import *`,
`from ._vouts import *`; the package directory holds the module files
`gain.py`, `_voutc.py`, `_vouts.py`.  `lowpass/_gain.py` runs
`from ..highpass import _gain`.  `HyperGraphs.py` runs
`from functions import highpass, lowpass`. -/

/-- Submodule names the `functions.highpass` package init imports
(`from .X import *`), in execution order. -/
def highpass_init_imports : List String := ["_gain", "_voutc", "_vouts"]

/-- Module files (stem names) actually present in the
`functions/highpass` package directory, besides `__init__.py`. -/
def highpass_package_modules : List String := ["gain", "_voutc", "_vouts"]

/-- Submodule of `functions.highpass` that `functions/lowpass/_gain.py`
imports via `from ..highpass import _gain`. -/
def lowpass_gain_import_from_highpass : String := "_gain"

/-- Packages imported by the top-level module `HyperGraphs.py`
(`from functions import highpass, lowpass`). -/
def toplevel_package_imports : List String := ["highpass", "lowpass"]

/-- A `from .X import *` in a package init resolves only when the
package directory contains a module named `X`. -/
def importResolves (available : List String) (needed : String) : Bool :=
  available.contains needed

/-! ## `plotter` signature and its call site

`plotter` (HyperGraphs.py line 107) declares exactly the parameters
`(hilo, verbose, data, tau)`.  `main` (`__main__.py` lines 54–60) calls
`HyperGraphs.plotter(hilo, verbose, data, args.tau, args.nophi1)` with
five positional arguments. -/

/-- The declared parameter names of `plotter`. -/
def plotter_params : List String := ["hilo", "verbose", "data", "tau"]

/-- The positional arguments `main` passes to `HyperGraphs.plotter`. -/
def main_plotter_call_args : List String :=
  ["hilo", "verbose", "data", "args.tau", "args.nophi1"]

/-- Initial-guess (free-parameter) vector of the in-phase
(`voutcosphi`) fit in `plotter` (lines 243–249):
`np.array((tau, np.mean(data.v_in), 0))`. -/
noncomputable def plotter_p0_voutcosphi (tau : ℝ) (v_in : List ℝ) : List ℝ :=
  [tau, np.mean v_in, 0]

/-- Initial-guess (free-parameter) vector of the quadrature
(`voutsinphi`) fit in `plotter` (lines 256–262):
`np.array((tau, np.mean(data.v_in), 0))`. -/
noncomputable def plotter_p0_voutsinphi (tau : ℝ) (v_in : List ℝ) : List ℝ :=
  [tau, np.mean v_in, 0]

/-! ## Unfolding lemmas (zeta-reduced forms of the scalar kernels) -/

lemma highpass_gain_point_eq (frequency tau : ℝ) :
    highpass.gain_point frequency tau =
      20 * Real.logb 10 (1 / Real.sqrt ((1 / (2 * π * frequency * tau)) ^ 2 + 1)) := rfl

lemma lowpass_gain_point_eq (frequency tau : ℝ) :
    lowpass.gain_point frequency tau =
      10 * Real.logb 10 (1 / ((2 * π * tau * frequency) ^ 2 + 1)) := rfl

lemma highpass_voutcosphi_point_eq (frequency tau v_in phi_1 : ℝ) :
    highpass.voutcosphi_point frequency tau v_in phi_1 =
      v_in / Real.sqrt ((2 * π * tau * frequency) ^ (-2 : ℤ) + 1) *
        (-(2 * π * tau * frequency) / Real.sqrt ((2 * π * tau * frequency) ^ 2 + 1) *
            Real.cos phi_1 -
          1 / Real.sqrt ((2 * π * tau * frequency) ^ 2 + 1) * Real.sin phi_1) := rfl

lemma highpass_voutsinphi_point_eq (frequency tau v_in phi_1 : ℝ) :
    highpass.voutsinphi_point frequency tau v_in phi_1 =
      v_in / Real.sqrt ((2 * π * tau * frequency) ^ (-2 : ℤ) + 1) *
        (1 / Real.sqrt ((2 * π * tau * frequency) ^ 2 + 1) * Real.cos phi_1 +
          -(2 * π * tau * frequency) / Real.sqrt ((2 * π * tau * frequency) ^ 2 + 1) *
            Real.sin phi_1) := rfl

lemma lowpass_voutcosphi_point_eq (frequency tau v_in phi_1 : ℝ) :
    lowpass.voutcosphi_point frequency tau v_in phi_1 =
      v_in / Real.sqrt ((2 * π * tau * frequency) ^ 2 + 1) *
        (1 / Real.sqrt ((2 * π * tau * frequency) ^ 2 + 1) * Real.cos phi_1 -
          2 * π * tau * frequency / Real.sqrt ((2 * π * tau * frequency) ^ 2 + 1) *
            Real.sin phi_1) := rfl

lemma lowpass_voutsinphi_point_eq (frequency tau v_in phi_1 : ℝ) :
    lowpass.voutsinphi_point frequency tau v_in phi_1 =
      v_in / Real.sqrt ((2 * π * tau * frequency) ^ 2 + 1) *
        (-(2 * π * tau * frequency) / Real.sqrt ((2 * π * tau * frequency) ^ 2 + 1) *
            Real.cos phi_1 +
          1 / Real.sqrt ((2 * π * tau * frequency) ^ 2 + 1) * Real.sin phi_1) := rfl

/-! ## Claims C1, C2, C10: the two theoretical gain formulas -/

/-- Claim C1: for every frequency array with all entries > 0 and every
tau > 0, the high-pass theoretical gain function returns, pointwise,
`20*log10(1/sqrt((1/x)^2 + 1))` with `x = 2*pi*frequency*tau`. -/
theorem C1_highpass_gain_formula (frequency : List ℝ) (tau : ℝ)
    (hf : ∀ f ∈ frequency, 0 < f) (ht : 0 < tau) :
    highpass.calc_gain_from_theory frequency tau =
      frequency.map (fun f =>
        20 * Real.logb 10 (1 / Real.sqrt ((1 / (2 * π * f * tau)) ^ 2 + 1))) := by
  unfold highpass.calc_gain_from_theory highpass.gain_point
  rfl

/-- Witness for C1 at `frequency = [1, 2]`, `tau = 1`. -/
theorem C1_highpass_gain_formula_witness :
    (∀ f ∈ ([1, 2] : List ℝ), 0 < f) ∧ (0 : ℝ) < 1 ∧
      highpass.calc_gain_from_theory [1, 2] 1 =
        ([1, 2] : List ℝ).map (fun f =>
          20 * Real.logb 10 (1 / Real.sqrt ((1 / (2 * π * f * 1)) ^ 2 + 1))) := by
  refine ⟨?_, one_pos, C1_highpass_gain_formula [1, 2] 1 ?_ one_pos⟩ <;>
    · intro f hf
      rcases List.mem_cons.mp hf with h | h
      · norm_num [h]
      · rcases List.mem_cons.mp h with h | h
        · norm_num [h]
        · simp at h

/-- Claim C2: for every frequency array with all entries > 0 and every
tau, the low-pass theoretical gain function returns, pointwise,
`10*log10(1/(x^2 + 1))` with `x = 2*pi*tau*frequency` — leading factor
10, exactly as written in the source. -/
theorem C2_lowpass_gain_formula (frequency : List ℝ) (tau : ℝ)
    (hf : ∀ f ∈ frequency, 0 < f) :
    lowpass.calc_gain_from_theory frequency tau =
      frequency.map (fun f =>
        10 * Real.logb 10 (1 / ((2 * π * tau * f) ^ 2 + 1))) := by
  unfold lowpass.calc_gain_from_theory lowpass.gain_point
  rfl

/-- Witness for C2 at `frequency = [1]`, `tau = 2`. -/
theorem C2_lowpass_gain_formula_witness :
    (∀ f ∈ ([1] : List ℝ), 0 < f) ∧
      lowpass.calc_gain_from_theory [1] 2 =
        ([1] : List ℝ).map (fun f =>
          10 * Real.logb 10 (1 / ((2 * π * 2 * f) ^ 2 + 1))) := by
  refine ⟨?_, C2_lowpass_gain_formula [1] 2 ?_⟩ <;>
    · intro f hf
      rcases List.mem_cons.mp hf with h | h
      · norm_num [h]
      · simp at h

/-- Claim C10: for every frequency > 0 and every tau, the low-pass gain
as coded, `10*log10(1/(x^2+1))` with `x = 2*pi*tau*frequency`, equals
`20*log10(1/sqrt(x^2+1))`, the amplitude-ratio dB convention of the
high-pass gain formula — the factor-10-versus-20 discrepancy makes no
numerical difference. -/
theorem C10_lowpass_gain_convention (frequency tau : ℝ) (hf : 0 < frequency) :
    lowpass.gain_point frequency tau =
      20 * Real.logb 10 (1 / Real.sqrt ((2 * π * tau * frequency) ^ 2 + 1)) := by
  rw [lowpass_gain_point_eq]
  set x := 2 * π * tau * frequency with hx
  have hs : (0 : ℝ) ≤ x ^ 2 + 1 := by positivity
  rw [one_div, one_div, Real.logb_inv, Real.logb_inv, Real.logb, Real.logb,
    Real.log_sqrt hs]
  ring

/-- Witness for C10 at `frequency = 1`, `tau = 3`. -/
theorem C10_lowpass_gain_convention_witness :
    (0 : ℝ) < 1 ∧
      lowpass.gain_point 1 3 =
        20 * Real.logb 10 (1 / Real.sqrt ((2 * π * 3 * 1) ^ 2 + 1)) :=
  ⟨one_pos, C10_lowpass_gain_convention 1 3 one_pos⟩

/-! ## Claim C5: the export grid -/

set_option maxRecDepth 20000 in
/-- Counterexample to claim C5 as stated: the export grid has 325
points (not ~170), and its last value is 980000 (below the claimed
~990000+). -/
theorem C5_export_grid_counterexample :
    save_point_frequency.length = 325 ∧ 170 < save_point_frequency.length ∧
      save_point_frequency.getLast? = some 980000 ∧ 980000 < 990000 := by
  decide

set_option maxRecDepth 100000 in
/-- Claim C5 (amended): the export grid is the concatenation of the ten
arange sub-ranges, contains 325 points (the sum of the ten sub-ranges'
sizes: 40+25+40+25+40+25+40+25+40+25), is strictly increasing with no
boundary value double-counted, and its first and last values are 10 and
980000. -/
theorem C5_export_grid :
    save_point_frequency.Pairwise (· < ·) ∧
      save_point_frequency.head? = some 10 ∧
      save_point_frequency.getLast? = some 980000 ∧
      save_point_frequency.length =
        (np.arange 10 50 1).length + (np.arange 50 100 2).length +
          (np.arange 100 500 10).length + (np.arange 500 1000 20).length +
          (np.arange 1000 5000 100).length + (np.arange 5000 10000 200).length +
          (np.arange 10000 50000 1000).length + (np.arange 50000 100000 2000).length +
          (np.arange 100000 500000 10000).length + (np.arange 500000 1000000 20000).length ∧
      save_point_frequency.length = 325 := by
  refine ⟨by decide, by decide, by decide, by decide, by decide⟩

/-! ## Claim C4: the broken `_gain` import -/

/-- Claim C4: `highpass/__init__.py` imports `._gain`, and
`lowpass/_gain.py` imports `_gain` from the highpass package, but no
module named `_gain` exists there (the file is `gain.py`), so the
package init's first star-import cannot resolve, while the top-level
module imports both packages. -/
theorem C4_missing_gain_module :
    "_gain" ∈ highpass_init_imports ∧
      importResolves highpass_package_modules "_gain" = false ∧
      importResolves highpass_package_modules lowpass_gain_import_from_highpass = false ∧
      highpass_init_imports.head? = some "_gain" ∧
      "highpass" ∈ toplevel_package_imports ∧ "lowpass" ∈ toplevel_package_imports := by
  refine ⟨by decide, by decide, by decide, by decide, by decide, by decide⟩

/-! ## Claim C3: the `nophi1` option -/

/-- Code evidence for claim C3: `main` passes five positional arguments
to `plotter`, which declares only four parameters (so the `nophi1`
argument has no matching parameter), and the free-parameter vectors of
both the in-phase and quadrature fits always have length 3 — no code
path reduces them to 2 or fixes `phi_1`. -/
theorem C3_nophi1_not_implemented (tau : ℝ) (v_in : List ℝ) :
    main_plotter_call_args.length = 5 ∧ plotter_params.length = 4 ∧
      "nophi1" ∉ plotter_params ∧
      (plotter_p0_voutcosphi tau v_in).length = 3 ∧
      (plotter_p0_voutsinphi tau v_in).length = 3 := by
  refine ⟨by decide, by decide, by decide, rfl, rfl⟩

/-! ## IEEE-754 special values and the direct gain estimator

`calc_gain_direct` (`highpass/gain.py` line 40) computes
`20 * np.log10(v_out / v_in)` on IEEE doubles.  numpy raises no
exception here: division by zero yields ±∞ or NaN and `log10` of a
non-positive number yields -∞ or NaN (only warnings are emitted).
`FloatVal` models a double as a finite real or one of the three special
values, with the IEEE-754 semantics of the operations involved (the
single real zero stands for IEEE +0.0). -/

/-- An IEEE-754 double: a finite real number, an infinity, or NaN. -/
inductive FloatVal where
  | finite : ℝ → FloatVal
  | posInf : FloatVal
  | negInf : FloatVal
  | nan : FloatVal

namespace FloatVal

/-- Whether a double is finite (neither an infinity nor NaN). -/
def isFinite : FloatVal → Bool
  | finite _ => true
  | _ => false

/-- IEEE-754 division.  Finite by nonzero finite is exact real
division; nonzero finite by (+)zero is a signed infinity; 0/0, ∞/∞ and
any NaN operand give NaN. -/
noncomputable def div : FloatVal → FloatVal → FloatVal
  | finite a, finite b =>
      if b = 0 then (if a = 0 then nan else if 0 < a then posInf else negInf)
      else finite (a / b)
  | finite _, posInf => finite 0
  | finite _, negInf => finite 0
  | posInf, finite b => if 0 ≤ b then posInf else negInf
  | negInf, finite b => if 0 ≤ b then negInf else posInf
  | _, _ => nan

/-- IEEE-754 `log10`: positive finite arguments give the real base-10
logarithm, zero gives -∞, negative arguments and NaN give NaN, +∞
gives +∞. -/
noncomputable def log10 : FloatVal → FloatVal
  | finite a => if 0 < a then finite (Real.logb 10 a) else if a = 0 then negInf else nan
  | posInf => posInf
  | negInf => nan
  | nan => nan

/-- IEEE-754 multiplication by the positive finite constant 20:
scales finite values, preserves infinities and NaN. -/
noncomputable def mul20 : FloatVal → FloatVal
  | finite a => finite (20 * a)
  | posInf => posInf
  | negInf => negInf
  | nan => nan

end FloatVal

/-- `highpass/gain.py`, `calc_gain_direct`:
`return 20 * np.log10(v_out / v_in)`, on one sample. -/
noncomputable def highpass.calc_gain_direct (v_in v_out : FloatVal) : FloatVal :=
  FloatVal.mul20 (FloatVal.log10 (FloatVal.div v_out v_in))

/-- `lowpass/_gain.py` line 7: `calc_gain_direct = _gain.calc_gain_direct`
— the low-pass direct gain estimator is the very same function. -/
noncomputable def lowpass.calc_gain_direct (v_in v_out : FloatVal) : FloatVal :=
  highpass.calc_gain_direct v_in v_out

/-- `calc_gain_direct` over whole arrays, as numpy broadcasting
applies it: pointwise, one output per sample, no filtering. -/
noncomputable def highpass.calc_gain_direct_vec (v_in v_out : List FloatVal) : List FloatVal :=
  List.zipWith highpass.calc_gain_direct v_in v_out

/-! ## Claim C8: non-finite direct gains, no exception, no filtering -/

/-- Claim C8: the direct gain estimator `20*log10(v_out/v_in)` (a total
function in this model — numpy raises no exception here) produces a
non-finite value (NaN or ±∞) whenever `v_in` is zero or `v_out/v_in` is
negative, and its vectorized form emits one output per input sample —
no internal filtering of bad samples. -/
theorem C8_direct_gain_nonfinite (v_in v_out : ℝ) (l_in l_out : List FloatVal)
    (h : v_in = 0 ∨ v_out / v_in < 0) :
    (highpass.calc_gain_direct (FloatVal.finite v_in) (FloatVal.finite v_out)).isFinite
        = false ∧
      (highpass.calc_gain_direct_vec l_in l_out).length = min l_in.length l_out.length := by
  constructor
  · unfold highpass.calc_gain_direct
    rcases h with h0 | hneg
    · subst h0
      rcases lt_trichotomy v_out 0 with hlt | heq | hgt
      · simp [FloatVal.div, FloatVal.log10, FloatVal.mul20, FloatVal.isFinite,
          hlt.ne, not_lt_of_lt hlt]
      · simp [FloatVal.div, FloatVal.log10, FloatVal.mul20, FloatVal.isFinite, heq]
      · simp [FloatVal.div, FloatVal.log10, FloatVal.mul20, FloatVal.isFinite,
          hgt, hgt.ne']
    · have hvin : v_in ≠ 0 := by
        intro h0
        rw [h0, div_zero] at hneg
        exact lt_irrefl 0 hneg
      simp [FloatVal.div, FloatVal.log10, FloatVal.mul20, FloatVal.isFinite,
        hvin, not_lt_of_lt hneg, hneg.ne]
  · exact List.length_zipWith ..

/-- Witness for C8 at `v_in = 0`, `v_out = 1`, one-sample arrays. -/
theorem C8_direct_gain_nonfinite_witness :
    ((0 : ℝ) = 0 ∨ (1 : ℝ) / 0 < 0) ∧
      ((highpass.calc_gain_direct (FloatVal.finite 0) (FloatVal.finite 1)).isFinite
          = false ∧
        (highpass.calc_gain_direct_vec [FloatVal.finite 0]
            [FloatVal.finite 1]).length
          = min [FloatVal.finite 0].length [FloatVal.finite 1].length) :=
  ⟨Or.inl rfl,
    C8_direct_gain_nonfinite 0 1 [FloatVal.finite 0] [FloatVal.finite 1] (Or.inl rfl)⟩

/-! ## Claim C9: the fit pipeline on a zero-length Measurement Set

`plotter` (HyperGraphs.py lines 227–263) computes the three direct
estimates and runs three `scipy.optimize.curve_fit` regressions in
sequence, with no `try`/`except` anywhere in the function, so a raised
solver error propagates to the caller. -/

/-- The `ExperimentData` class of `HyperGraphs.py` (lines 27–53): four
equal-length measurement arrays. -/
structure ExperimentData where
  v_in : List ℝ
  v_out : List ℝ
  frequency : List ℝ
  phi : List ℝ

/-- Modelled from the spec: `scipy.optimize.curve_fit`, the underlying
nonlinear least-squares solver, is an external collaborator whose code
is not part of this repository.  Per the spec's failure contract
(§4.3/§7), the regression raises a fit-non-convergence error when the
solver cannot proceed — in particular when the Jacobian is singular,
e.g. on zero-length input (scipy indeed refuses fewer residuals than
free parameters).  The iterative Levenberg–Marquardt computation itself
is outside the embedded program, so a successful fit's value is
abstracted by the `solution` argument. -/
def curve_fit (solution : List ℝ) (xdata ydata p0 : List ℝ) :
    Except String (List ℝ) :=
  if xdata.length < p0.length then Except.error "fit did not converge"
  else Except.ok solution

/-- `points_gain = f1(data.v_in, data.v_out)` (line 227): the direct
gain targets, computed over the reals. -/
noncomputable def points_gain (data : ExperimentData) : List ℝ :=
  List.zipWith (fun vi vo => 20 * Real.logb 10 (vo / vi)) data.v_in data.v_out

/-- `points_voutcosphi = g1(data.v_out, data.phi)` (line 238):
`v_out * np.cos(phi)` pointwise. -/
noncomputable def points_voutcosphi (data : ExperimentData) : List ℝ :=
  List.zipWith (fun vo p => vo * Real.cos p) data.v_out data.phi

/-- `points_voutsinphi = h1(data.v_out, data.phi)` (line 251):
`v_out * np.sin(phi)` pointwise. -/
noncomputable def points_voutsinphi (data : ExperimentData) : List ℝ :=
  List.zipWith (fun vo p => vo * Real.sin p) data.v_out data.phi

/-- The fitting section of `plotter` (lines 227–263): three
`curve_fit` calls in sequence — gain with initial guess `(tau,)`,
in-phase and quadrature with `(tau, mean(v_in), 0)` — where a raised
solver error aborts the function (no handler exists in `plotter`).
`sol1 sol2 sol3` abstract the three solvers' successful outputs. -/
noncomputable def plotter_fits (sol1 sol2 sol3 : List ℝ) (data : ExperimentData)
    (tau : ℝ) : Except String (List ℝ × List ℝ × List ℝ) :=
  match curve_fit sol1 data.frequency (points_gain data) [tau] with
  | Except.error e => Except.error e
  | Except.ok fit_gain =>
    match curve_fit sol2 data.frequency (points_voutcosphi data)
        (plotter_p0_voutcosphi tau data.v_in) with
    | Except.error e => Except.error e
    | Except.ok fit_voutcosphi =>
      match curve_fit sol3 data.frequency (points_voutsinphi data)
          (plotter_p0_voutsinphi tau data.v_in) with
      | Except.error e => Except.error e
      | Except.ok fit_voutsinphi => Except.ok (fit_gain, fit_voutcosphi, fit_voutsinphi)

/-- Claim C9: on a zero-length Measurement Set (all four arrays empty)
the fit pipeline of `plotter` yields the fit-non-convergence error —
already the first regression fails, and the error propagates; no empty
or fallback result is returned. -/
theorem C9_empty_measurement_set (sol1 sol2 sol3 : List ℝ) (tau : ℝ) :
    plotter_fits sol1 sol2 sol3 ⟨[], [], [], []⟩ tau =
      Except.error "fit did not converge" := rfl

/-! ## Claim C6: the in-phase/quadrature/gain round-trip identity -/

lemma gain_point_of_true (frequency tau : ℝ) :
    gain_point_of true frequency tau = highpass.gain_point frequency tau := rfl

lemma gain_point_of_false (frequency tau : ℝ) :
    gain_point_of false frequency tau = lowpass.gain_point frequency tau := rfl

lemma voutcosphi_point_of_true (frequency tau v_in phi_1 : ℝ) :
    voutcosphi_point_of true frequency tau v_in phi_1 =
      highpass.voutcosphi_point frequency tau v_in phi_1 := rfl

lemma voutcosphi_point_of_false (frequency tau v_in phi_1 : ℝ) :
    voutcosphi_point_of false frequency tau v_in phi_1 =
      lowpass.voutcosphi_point frequency tau v_in phi_1 := rfl

lemma voutsinphi_point_of_true (frequency tau v_in phi_1 : ℝ) :
    voutsinphi_point_of true frequency tau v_in phi_1 =
      highpass.voutsinphi_point frequency tau v_in phi_1 := rfl

lemma voutsinphi_point_of_false (frequency tau v_in phi_1 : ℝ) :
    voutsinphi_point_of false frequency tau v_in phi_1 =
      lowpass.voutsinphi_point frequency tau v_in phi_1 := rfl

lemma zpow_neg_two_eq (y : ℝ) : y ^ (-2 : ℤ) = (y ^ 2)⁻¹ := by
  rw [zpow_neg]
  norm_cast

/-- `10^(Gain/20)` for the high-pass gain shape `20*log10(1/sqrt s)`. -/
lemma rpow_gain_div_twenty_hp (s : ℝ) (hy : (0 : ℝ) < 1 / Real.sqrt s) :
    (10 : ℝ) ^ (20 * Real.logb 10 (1 / Real.sqrt s) / 20) = 1 / Real.sqrt s := by
  rw [mul_div_cancel_left₀ _ (by norm_num : (20 : ℝ) ≠ 0)]
  exact Real.rpow_logb (by norm_num) (by norm_num) hy

/-- `10^(Gain/20)` for the low-pass gain shape `10*log10(1/(u^2+1))`. -/
lemma rpow_gain_div_twenty_lp (u : ℝ) (hu : (0 : ℝ) < 1 / (u ^ 2 + 1)) :
    (10 : ℝ) ^ (10 * Real.logb 10 (1 / (u ^ 2 + 1)) / 20) =
      1 / Real.sqrt (u ^ 2 + 1) := by
  have hexp : 10 * Real.logb 10 (1 / (u ^ 2 + 1)) / 20 =
      Real.logb 10 (1 / (u ^ 2 + 1)) * (1 / 2) := by ring
  rw [hexp, Real.rpow_mul (by norm_num : (0 : ℝ) ≤ 10),
    Real.rpow_logb (by norm_num) (by norm_num) hu,
    ← Real.sqrt_eq_rpow, one_div, Real.sqrt_inv, one_div]

/-- Shared kernel of the C6 computation: the squared norm of the
normalized transfer components `(a/den, b/den)` with `a^2 + b^2 = den^2`. -/
lemma transfer_norm (a b v d : ℝ) (hd : d ≠ 0) (hsq : a ^ 2 + b ^ 2 = d ^ 2) :
    (v * (a / d)) ^ 2 + (v * (b / d)) ^ 2 = v ^ 2 := by
  field_simp
  nlinarith [hsq]

/-- Claim C6: for every frequency > 0, tau > 0 and `v_in_amplitude`,
with `phi_1 = 0`, the theoretical in-phase and quadrature functions of
either filter kind satisfy
`InPhase^2 + Quadrature^2 = (v_in * |H(frequency, tau)|)^2`, where
`|H| = 10^(Gain/20)` is the amplitude magnitude implied by that kind's
gain formula. -/
theorem C6_inphase_quadrature_identity (hilo : Bool) (frequency tau v_in : ℝ)
    (hf : 0 < frequency) (ht : 0 < tau) :
    voutcosphi_point_of hilo frequency tau v_in 0 ^ 2 +
        voutsinphi_point_of hilo frequency tau v_in 0 ^ 2 =
      (v_in * (10 : ℝ) ^ (gain_point_of hilo frequency tau / 20)) ^ 2 := by
  have hx : 0 < 2 * π * tau * frequency := by positivity
  have hx2 : (0 : ℝ) < (2 * π * tau * frequency) ^ 2 + 1 := by positivity
  have hden : (0 : ℝ) < Real.sqrt ((2 * π * tau * frequency) ^ 2 + 1) :=
    Real.sqrt_pos.mpr hx2
  cases hilo with
  | true =>
    rw [gain_point_of_true, voutcosphi_point_of_true, voutsinphi_point_of_true,
      highpass_voutcosphi_point_eq, highpass_voutsinphi_point_eq,
      highpass_gain_point_eq, zpow_neg_two_eq, Real.cos_zero, Real.sin_zero]
    have harg : (1 / (2 * π * frequency * tau)) ^ 2 + 1 =
        ((2 * π * tau * frequency) ^ 2)⁻¹ + 1 := by
      ring
    rw [harg]
    have hy : (0 : ℝ) < 1 / Real.sqrt (((2 * π * tau * frequency) ^ 2)⁻¹ + 1) := by
      positivity
    rw [rpow_gain_div_twenty_hp _ hy]
    have hsq : (-(2 * π * tau * frequency)) ^ 2 + 1 ^ 2 =
        Real.sqrt ((2 * π * tau * frequency) ^ 2 + 1) ^ 2 := by
      rw [Real.sq_sqrt hx2.le]
      ring
    have key := transfer_norm (-(2 * π * tau * frequency)) 1
      (v_in / Real.sqrt (((2 * π * tau * frequency) ^ 2)⁻¹ + 1))
      (Real.sqrt ((2 * π * tau * frequency) ^ 2 + 1)) hden.ne' hsq
    linear_combination key
  | false =>
    rw [gain_point_of_false, voutcosphi_point_of_false, voutsinphi_point_of_false,
      lowpass_voutcosphi_point_eq, lowpass_voutsinphi_point_eq,
      lowpass_gain_point_eq, Real.cos_zero, Real.sin_zero]
    have hu : (0 : ℝ) < 1 / ((2 * π * tau * frequency) ^ 2 + 1) := by positivity
    rw [rpow_gain_div_twenty_lp _ hu]
    have hsq : (1 : ℝ) ^ 2 + (-(2 * π * tau * frequency)) ^ 2 =
        Real.sqrt ((2 * π * tau * frequency) ^ 2 + 1) ^ 2 := by
      rw [Real.sq_sqrt hx2.le]
      ring
    have key := transfer_norm 1 (-(2 * π * tau * frequency))
      (v_in / Real.sqrt ((2 * π * tau * frequency) ^ 2 + 1))
      (Real.sqrt ((2 * π * tau * frequency) ^ 2 + 1)) hden.ne' hsq
    linear_combination key

/-- Witness for C6 at `hilo = true`, `frequency = 1`, `tau = 1`,
`v_in = 5`. -/
theorem C6_inphase_quadrature_identity_witness :
    (0 : ℝ) < 1 ∧
      voutcosphi_point_of true 1 1 5 0 ^ 2 + voutsinphi_point_of true 1 1 5 0 ^ 2 =
        (5 * (10 : ℝ) ^ (gain_point_of true 1 1 / 20)) ^ 2 :=
  ⟨one_pos, C6_inphase_quadrature_identity true 1 1 5 one_pos one_pos⟩

/-! ## Claim C7: shape of the high-pass gain curve -/

/-- The high-pass gain rewritten over the natural logarithm:
`-10 * log((2πfτ)⁻² + 1) / log 10` — an identity holding for all
arguments, used for the monotonicity and limit arguments. -/
lemma hp_gain_log_form (frequency tau : ℝ) :
    highpass.gain_point frequency tau =
      -10 * (Real.log (((2 * π * frequency * tau) ^ 2)⁻¹ + 1) / Real.log 10) := by
  rw [highpass_gain_point_eq]
  have harg : (1 / (2 * π * frequency * tau)) ^ 2 + 1 =
      ((2 * π * frequency * tau) ^ 2)⁻¹ + 1 := by ring
  rw [harg]
  have hs : (0 : ℝ) ≤ ((2 * π * frequency * tau) ^ 2)⁻¹ + 1 := by positivity
  rw [one_div (Real.sqrt _), Real.logb, Real.log_inv, Real.log_sqrt hs]
  ring

/-- Claim C7: for every tau > 0, the high-pass theoretical gain is
strictly monotonically increasing in frequency on (0, ∞), tends to
0 dB as frequency → ∞, and tends to -∞ as frequency → 0 from the
right. -/
theorem C7_highpass_gain_monotone_limits (tau : ℝ) (ht : 0 < tau) :
    StrictMonoOn (fun f => highpass.gain_point f tau) (Set.Ioi 0) ∧
      Tendsto (fun f => highpass.gain_point f tau) atTop (nhds 0) ∧
      Tendsto (fun f => highpass.gain_point f tau) (nhdsWithin 0 (Set.Ioi 0)) atBot := by
  refine ⟨?_, ?_, ?_⟩
  · intro f1 hf1 f2 hf2 hlt
    simp only [Set.mem_Ioi] at hf1 hf2
    simp only
    rw [hp_gain_log_form, hp_gain_log_form]
    have h1 : 0 < 2 * π * f1 * tau := by positivity
    have h2 : 0 < 2 * π * f2 * tau := by positivity
    have hprod : 2 * π * f1 * tau < 2 * π * f2 * tau := by
      have hpt : (0 : ℝ) < 2 * π * tau := by positivity
      nlinarith
    have hsqlt : (2 * π * f1 * tau) ^ 2 < (2 * π * f2 * tau) ^ 2 := by nlinarith
    have hsq1 : (0 : ℝ) < (2 * π * f1 * tau) ^ 2 := by positivity
    have hone := one_div_lt_one_div_of_lt hsq1 hsqlt
    rw [one_div, one_div] at hone
    have hs21 : ((2 * π * f2 * tau) ^ 2)⁻¹ + 1 < ((2 * π * f1 * tau) ^ 2)⁻¹ + 1 := by
      linarith
    have hs2pos : (0 : ℝ) < ((2 * π * f2 * tau) ^ 2)⁻¹ + 1 := by positivity
    have hlog := Real.log_lt_log hs2pos hs21
    have hL : 0 < Real.log 10 := Real.log_pos (by norm_num)
    have hdiv := (div_lt_div_iff_of_pos_right hL).mpr hlog
    linarith
  · refine Tendsto.congr (fun f => (hp_gain_log_form f tau).symm) ?_
    have h1 : Tendsto (fun f : ℝ => 2 * π * f * tau) atTop atTop := by
      have h0 : Tendsto (fun f : ℝ => (2 * π * tau) * f) atTop atTop :=
        Tendsto.const_mul_atTop (by positivity) tendsto_id
      exact h0.congr (fun f => by ring)
    have h2 : Tendsto (fun f : ℝ => (2 * π * f * tau) ^ 2) atTop atTop :=
      (tendsto_pow_atTop (by norm_num : (2 : ℕ) ≠ 0)).comp h1
    have h3 : Tendsto (fun f : ℝ => ((2 * π * f * tau) ^ 2)⁻¹) atTop (nhds 0) :=
      h2.inv_tendsto_atTop
    have h4 : Tendsto (fun f : ℝ => ((2 * π * f * tau) ^ 2)⁻¹ + 1) atTop (nhds 1) := by
      have h4a := h3.add_const (1 : ℝ)
      rw [zero_add] at h4a
      exact h4a
    have h5 : Tendsto (fun f : ℝ => Real.log (((2 * π * f * tau) ^ 2)⁻¹ + 1))
        atTop (nhds 0) := by
      have h5a := (Real.continuousAt_log one_ne_zero).tendsto.comp h4
      rw [Real.log_one] at h5a
      exact h5a
    have h6 := (h5.div_const (Real.log 10)).const_mul (-10 : ℝ)
    rw [zero_div, mul_zero] at h6
    exact h6
  · refine Tendsto.congr (fun f => (hp_gain_log_form f tau).symm) ?_
    have h2 : Tendsto (fun f : ℝ => (2 * π * f * tau) ^ 2) (nhdsWithin 0 (Set.Ioi 0))
        (nhdsWithin 0 (Set.Ioi 0)) := by
      rw [tendsto_nhdsWithin_iff]
      constructor
      · have hc : Continuous (fun f : ℝ => (2 * π * f * tau) ^ 2) := by continuity
        exact (hc.tendsto' 0 0 (by ring)).mono_left nhdsWithin_le_nhds
      · filter_upwards [self_mem_nhdsWithin] with f hf
        have hfpos : (0 : ℝ) < f := hf
        exact Set.mem_Ioi.mpr (by positivity)
    have h3 : Tendsto (fun f : ℝ => ((2 * π * f * tau) ^ 2)⁻¹)
        (nhdsWithin 0 (Set.Ioi 0)) atTop := tendsto_inv_zero_atTop.comp h2
    have h4 := tendsto_atTop_add_const_right (nhdsWithin (0 : ℝ) (Set.Ioi 0)) 1 h3
    have h5 : Tendsto (fun f : ℝ => Real.log (((2 * π * f * tau) ^ 2)⁻¹ + 1))
        (nhdsWithin 0 (Set.Ioi 0)) atTop := Real.tendsto_log_atTop.comp h4
    have h6 : Tendsto
        (fun f : ℝ => Real.log (((2 * π * f * tau) ^ 2)⁻¹ + 1) / Real.log 10)
        (nhdsWithin 0 (Set.Ioi 0)) atTop :=
      h5.atTop_div_const (Real.log_pos (by norm_num : (1 : ℝ) < 10))
    exact Tendsto.const_mul_atTop_of_neg (by norm_num : (-10 : ℝ) < 0) h6

/-- Witness for C7 at `tau = 1`. -/
theorem C7_highpass_gain_monotone_limits_witness :
    (0 : ℝ) < 1 ∧
      (StrictMonoOn (fun f => highpass.gain_point f 1) (Set.Ioi 0) ∧
        Tendsto (fun f => highpass.gain_point f 1) atTop (nhds 0) ∧
        Tendsto (fun f => highpass.gain_point f 1) (nhdsWithin 0 (Set.Ioi 0)) atBot) :=
  ⟨one_pos, C7_highpass_gain_monotone_limits 1 one_pos⟩

end HyperGraphs
